import Mathlib

/-!
Shallow embedding of the VoiceMesh voice-chat pipeline
(`src/config.py` and `src/voice_ai_chat.py`).

The persisted conversation file is modelled as an `Option Json` (the parsed
content of `chat_context.json`, `none` when the file does not exist), the
output audio file as an `Option (List Nat)` of byte values, and every remote
provider as an oracle field of a `World` record.  Each pipeline stage returns
its Python result (`Except PyError _`, an `error` being a raised exception)
together with the list of external calls it performed, so that claims about
which providers are invoked, with which payloads, are statable.
-/

namespace VoiceMesh

/-- A JSON value, as produced by Python's `json.load` and consumed by
`json.dump`.  Numbers are represented as exact rationals (the only numeric
literals in the program are 0.3 and 0.7). -/
inductive Json where
  | null : Json
  | bool : Bool → Json
  | num : ℚ → Json
  | str : String → Json
  | arr : List Json → Json
  | obj : List (String × Json) → Json

/-- A raised Python exception.  The first constructors are the exceptions the
program (or its libraries) can actually raise; the `transcriptionError`,
`generationError`, `synthesisError` and `malformedStoreError` constructors
exist only so that the specification's error taxonomy is statable — the code
never constructs them. -/
inductive PyError where
  | keyError : String → PyError
  | typeError : String → PyError
  | indexError : Nat → PyError
  | attributeError : String → PyError
  | requestsHTTPError : Nat → PyError
  | openAIAPIError : String → PyError
  | transcriptionError : PyError → PyError
  | generationError : PyError → PyError
  | synthesisError : PyError → PyError
  | malformedStoreError : PyError
deriving DecidableEq

/-- Python dict subscription `d[k]`: `KeyError` when the key is absent,
`TypeError` when the value is not a dict. -/
def pyGetItem : Json → String → Except PyError Json
  | .obj fs, k =>
    match fs.lookup k with
    | some v => .ok v
    | none => .error (.keyError k)
  | _, k => .error (.typeError k)

/-- Python list indexing `l[i]` for a non-negative index. -/
def pyIndex : Json → Nat → Except PyError Json
  | .arr xs, i =>
    match xs.get? i with
    | some v => .ok v
    | none => .error (.indexError i)
  | _, i => .error (.indexError i)

/-- Python truthiness of a string: non-empty strings are truthy. -/
def pyTruthy (s : String) : Bool := !s.isEmpty

/-- Python `a or b` on strings: the first operand when truthy, else the
second. -/
def pyOrStr (a b : String) : String := if pyTruthy a then a else b

/-- The byte values of an ASCII bytes literal such as `b"FAKEAUDIOBYTES"`. -/
def strBytes (s : String) : List Nat := s.toList.map Char.toNat

/-- The ASCII whitespace characters Python's `str.strip()` removes (the
program only ever strips model output, for which the ASCII set is the
relevant one). -/
def pyIsSpace (c : Char) : Bool :=
  c = ' ' || c = '\t' || c = '\n' || c = '\r' || c = '\x0b' || c = '\x0c'

/-- Python `str.strip()`: removes leading and trailing whitespace. -/
def pyStrip (s : String) : String :=
  ((s.toList.dropWhile pyIsSpace).reverse.dropWhile pyIsSpace).reverse.asString

/-! ## Configuration (`src/config.py`) -/

/-- The `Config` dataclass of `src/config.py`. -/
structure Config where
  OPENAI_API_KEY : String
  OPENAI_MODEL : String
  GEMINI_API_KEY : String
  ELEVEN_API_KEY : String
  ELEVEN_VOICE_ID : String
  mock : Bool
deriving DecidableEq

/-- Python `os.getenv(key, default)` over an environment modelled as a
partial map from variable names to values. -/
def getenv (env : String → Option String) (key dflt : String) : String :=
  (env key).getD dflt

/-- `Config.load_from_env`: reads the five environment variables and derives
`mock = not (o or g or e)`. -/
def Config.load_from_env (env : String → Option String) : Config :=
  let o := getenv env "OPENAI_API_KEY" ""
  let g := getenv env "GEMINI_API_KEY" ""
  let e := getenv env "ELEVEN_API_KEY" ""
  let vid := getenv env "ELEVEN_VOICE_ID" "21m00Tcm4TlvDq8ikWAM"
  let model := getenv env "OPENAI_MODEL" "gpt-4o-mini"
  let mock := !(pyTruthy o || pyTruthy g || pyTruthy e)
  ⟨o, model, g, e, vid, mock⟩

/-! ## Conversation store (`load_context`, `save_context`,
`append_to_context`) -/

/-- `load_context`: returns `[]` when `chat_context.json` does not exist,
otherwise the value `json.load` parses from it.  With the persisted file
modelled as already-parsed JSON the read itself never raises; the `Except`
codomain records raised-versus-returned, which the corrupt-store claims are
about.  There is no validation that the parsed value is a list. -/
def load_context (store : Option Json) : Except PyError Json :=
  match store with
  | none => .ok (.arr [])
  | some j => .ok j

/-- `save_context`: `json.dump` rewrites the whole file with the given
value; the new file content is that value. -/
def save_context (context : Json) : Option Json := some context

/-- The Turn dict appended by `append_to_context`:
`{"timestamp": now, "human": user_text, "ai": ai_reply}` with `now` the
`datetime.utcnow().isoformat()` string, threaded as a parameter. -/
def mkTurn (now : String) (user_text ai_reply : Json) : Json :=
  .obj [("timestamp", .str now), ("human", user_text), ("ai", ai_reply)]

/-- `append_to_context`: reloads the full context, appends a Turn with
`list.append` (an `AttributeError` when the loaded value is not a list), and
rewrites the file via `save_context`.  Returns the new file content. -/
def append_to_context (store : Option Json) (now : String)
    (user_text ai_reply : Json) : Except PyError (Option Json) := do
  let context ← load_context store
  match context with
  | .arr xs => .ok (save_context (.arr (xs ++ [mkTurn now user_text ai_reply])))
  | _ => .error (.attributeError "append")

/-! ## External world: provider oracles and the calls made to them -/

/-- A response from `requests.post` whose body the code reads as JSON. -/
structure JsonResponse where
  status : Nat
  body : Json

/-- A response from `requests.post` whose body the code reads as raw bytes. -/
structure BytesResponse where
  status : Nat
  content : List Nat

/-- Oracles for every external call the pipeline can perform.  `whisper`
abstracts opening the audio file and the Whisper transcription request (its
`error` is whatever exception that step raises); `openaiChat` abstracts the
chat-completion call, returning `completion.choices[0].message.content`. -/
structure World where
  whisper : String → Except PyError String
  gemini : Json → JsonResponse
  openaiChat : String → List (String × String) → Except PyError String
  eleven : String → Json → BytesResponse

/-- One external call actually performed, with its outbound payload. -/
inductive Call where
  | whisperCall : String → Call
  | geminiPost : Json → Call
  | openaiPost : (model : String) → (messages : List (String × String)) →
      (temperature : ℚ) → Call
  | elevenPost : (voiceId : String) → (payload : Json) → Call

/-- Whether `requests.Response.raise_for_status` raises for a status code. -/
def httpErrorStatus (status : Nat) : Bool := 400 ≤ status && status < 600

/-! ## Speech to text (`transcribe_audio`) -/

/-- `transcribe_audio`: in mock mode (or with no OpenAI key) returns the
fixed placeholder without touching the file or the network (the call list is
empty); otherwise performs exactly one Whisper call and returns its
transcript, propagating the raised exception unchanged on failure. -/
def transcribe_audio (cfg : Config) (w : World) (file_path : String) :
    Except PyError String × List Call :=
  if cfg.mock || !pyTruthy cfg.OPENAI_API_KEY then
    (.ok "Hello AI, how are you today?", [])
  else
    match w.whisper file_path with
    | .ok t => (.ok t, [.whisperCall file_path])
    | .error e => (.error e, [.whisperCall file_path])

/-! ## Text generation (`generate_response`) -/

/-- A single-quote character, written by code point to keep string literals
plain. -/
def sq : String := String.singleton (Char.ofNat 39)

/-- Python `repr()` of a JSON-like value, used by `str()` on containers.
Scalars follow CPython exactly except numbers, which are rendered as exact
rationals rather than float shortest-decimal form (the program's only
numeric literals, 0.3 and 0.7, never reach this function). -/
def pyRepr : Json → String
  | .null => "None"
  | .bool true => "True"
  | .bool false => "False"
  | .num q => toString q
  | .str s => sq ++ s ++ sq
  | .arr xs => "[" ++ String.intercalate ", " (xs.attach.map fun c => pyRepr c.1) ++ "]"
  | .obj fs => String.singleton (Char.ofNat 123)
      ++ String.intercalate ", "
           (fs.attach.map fun kv => sq ++ kv.1.1 ++ sq ++ ": " ++ pyRepr kv.1.2)
      ++ String.singleton (Char.ofNat 125)
decreasing_by
  · have := List.sizeOf_lt_of_mem c.2
    simp only [Json.arr.sizeOf_spec]
    omega
  · have h1 := List.sizeOf_lt_of_mem kv.2
    have h2 : sizeOf kv.1.2 < sizeOf kv.1 := by
      obtain ⟨⟨a, b⟩, hm⟩ := kv
      simp
    simp only [Json.obj.sizeOf_spec]
    omega

/-- Python `str()` as interpolated by an f-string: the identity on strings,
the CPython rendering of the other scalars, and `repr`-style rendering of
containers (the pipeline itself only ever stores strings in the
interpolated fields, so those cases are never reached by the program's own
data). -/
def pyStr : Json → String
  | .str s => s
  | .bool true => "True"
  | .bool false => "False"
  | .null => "None"
  | .num q => toString q
  | .arr xs => pyRepr (.arr xs)
  | .obj fs => pyRepr (.obj fs)

/-- One element of the history comprehension:
`f"Human: {c['human']}\nAI: {c['ai']}"`, raising `KeyError` (or `TypeError`
for a non-dict entry) exactly as the subscriptions do. -/
def renderTurn (c : Json) : Except PyError String := do
  let h ← pyGetItem c "human"
  let a ← pyGetItem c "ai"
  return "Human: " ++ pyStr h ++ "\nAI: " ++ pyStr a

/-- The list comprehension over the sliced context, evaluated left to right
with the first raised exception propagating. -/
def renderTurns : List Json → Except PyError (List String)
  | [] => .ok []
  | c :: cs => do
    let s ← renderTurn c
    let rest ← renderTurns cs
    return s :: rest

/-- Python `context[-5:]`: the last five elements of a list (all of them if
shorter), the last five characters of a string, and a `TypeError` on
non-sliceable values. -/
def pySliceLast5 : Json → Except PyError (List Json)
  | .arr xs => .ok (xs.drop (xs.length - 5))
  | .str s => .ok (((s.drop (s.length - 5)).toList).map fun ch =>
      Json.str (String.singleton ch))
  | _ => .error (.typeError "slice")

/-- The prompt `generate_response` builds before selecting a backend:
the history lines joined by newlines, spliced into the fixed template. -/
def buildPrompt (user_text : String) (context : Json) :
    Except PyError String := do
  let last5 ← pySliceLast5 context
  let lines ← renderTurns last5
  let history := String.intercalate "\n" lines
  return "The following is a conversation between a human and an AI assistant.\nPrevious conversation:\n"
    ++ history ++ "\n\nHuman: " ++ user_text ++ "\nAI:"

/-- The Gemini request payload
`{"contents": [{"parts": [{"text": prompt}]}]}`. -/
def geminiPayload (prompt : String) : Json :=
  .obj [("contents", .arr [.obj [("parts", .arr [.obj [("text", .str prompt)]])]])]

/-- Extraction of the Gemini reply:
`content["candidates"][0]["content"]["parts"][0]["text"]`. -/
def extractGeminiReply (body : Json) : Except PyError Json := do
  let cands ← pyGetItem body "candidates"
  let c0 ← pyIndex cands 0
  let ct ← pyGetItem c0 "content"
  let parts ← pyGetItem ct "parts"
  let p0 ← pyIndex parts 0
  pyGetItem p0 "text"

/-- The OpenAI chat messages: a fixed system instruction and the prompt. -/
def openaiMessages (prompt : String) : List (String × String) :=
  [("system", "You are a helpful voice AI assistant."), ("user", prompt)]

/-- `generate_response`: the mock branch returns the fixed reply with no
external call; otherwise the prompt is built first (so a `KeyError` in the
history aborts before any provider is contacted), then exactly one backend
is selected — Gemini when its key is truthy, else OpenAI when its key is
truthy, else the literal configuration-error string is returned (not
raised).  The reply is a `Json` value because the Gemini extraction returns
whatever JSON value sits in the `text` field. -/
def generate_response (cfg : Config) (w : World) (user_text : String)
    (context : Json) : Except PyError Json × List Call :=
  if cfg.mock then (.ok (.str "I\x27m great! How can I assist you today?"), [])
  else
    match buildPrompt user_text context with
    | .error e => (.error e, [])
    | .ok prompt =>
      if pyTruthy cfg.GEMINI_API_KEY then
        let r := w.gemini (geminiPayload prompt)
        if httpErrorStatus r.status then
          (.error (.requestsHTTPError r.status), [.geminiPost (geminiPayload prompt)])
        else
          (extractGeminiReply r.body, [.geminiPost (geminiPayload prompt)])
      else if pyTruthy cfg.OPENAI_API_KEY then
        let model := pyOrStr cfg.OPENAI_MODEL "gpt-4o-mini"
        let msgs := openaiMessages prompt
        match w.openaiChat model msgs with
        | .ok content => (.ok (.str (pyStrip content)), [.openaiPost model msgs 0.7])
        | .error e => (.error e, [.openaiPost model msgs 0.7])
      else (.ok (.str "[Error] No language model API configured."), [])

/-! ## Text to speech (`synthesize_speech`) -/

/-- The ElevenLabs request body:
`{"text": text, "voice_settings": {"stability": 0.3, "similarity_boost": 0.7}}`. -/
def synthesisPayload (text : Json) : Json :=
  .obj [("text", text),
        ("voice_settings", .obj [("stability", .num 0.3), ("similarity_boost", .num 0.7)])]

/-- `synthesize_speech`: mock mode (or a missing ElevenLabs key) returns the
fixed placeholder bytes with no call; otherwise exactly one POST keyed to
the configured voice id, whose raw bytes are returned, a `raise_for_status`
failure propagating unwrapped. -/
def synthesize_speech (cfg : Config) (w : World) (text : Json) :
    Except PyError (List Nat) × List Call :=
  if cfg.mock || !pyTruthy cfg.ELEVEN_API_KEY then
    (.ok (strBytes "FAKEAUDIOBYTES"), [])
  else
    let r := w.eleven cfg.ELEVEN_VOICE_ID (synthesisPayload text)
    if httpErrorStatus r.status then
      (.error (.requestsHTTPError r.status),
       [.elevenPost cfg.ELEVEN_VOICE_ID (synthesisPayload text)])
    else
      (.ok r.content, [.elevenPost cfg.ELEVEN_VOICE_ID (synthesisPayload text)])

/-! ## Pipeline orchestrator (`process_voice_message`) -/

/-- The observable outcome of one `process_voice_message` invocation: the
returned dict or raised exception, the final content of
`chat_context.json`, the final content of `ai_reply.mp3`, and the external
calls performed, in order. -/
structure PipeOutcome where
  result : Except PyError Json
  store : Option Json
  audioFile : Option (List Nat)
  calls : List Call

/-- `process_voice_message`: the strict sequence
transcribe → load context → generate → append → synthesize → write audio
file → return `{"text": ai_reply, "audio_path": "ai_reply.mp3"}`.  A raised
exception at any stage aborts the remaining steps, leaving the store and the
audio file as they were at that point (an already-performed append is kept). -/
def process_voice_message (cfg : Config) (w : World) (now audio_path : String)
    (store0 : Option Json) (audio0 : Option (List Nat)) : PipeOutcome :=
  match transcribe_audio cfg w audio_path with
  | (.error e, cs) => ⟨.error e, store0, audio0, cs⟩
  | (.ok text_input, cs1) =>
    match load_context store0 with
    | .error e => ⟨.error e, store0, audio0, cs1⟩
    | .ok context =>
      match generate_response cfg w text_input context with
      | (.error e, cs2) => ⟨.error e, store0, audio0, cs1 ++ cs2⟩
      | (.ok ai_reply, cs2) =>
        match append_to_context store0 now (.str text_input) ai_reply with
        | .error e => ⟨.error e, store0, audio0, cs1 ++ cs2⟩
        | .ok store1 =>
          match synthesize_speech cfg w ai_reply with
          | (.error e, cs3) => ⟨.error e, store1, audio0, cs1 ++ cs2 ++ cs3⟩
          | (.ok audio_bytes, cs3) =>
            ⟨.ok (.obj [("text", ai_reply), ("audio_path", .str "ai_reply.mp3")]),
             store1, some audio_bytes, cs1 ++ cs2 ++ cs3⟩

/-! ## Helper lemmas and concrete fixtures -/

@[simp]
theorem bindOk {α β ε : Type} (a : α) (f : α → Except ε β) :
    (Except.ok a >>= f) = f a := rfl

@[simp]
theorem bindErr {α β ε : Type} (e : ε) (f : α → Except ε β) :
    ((Except.error e : Except ε α) >>= f) = Except.error e := rfl

/-- Whether a history entry is a dict containing both the `human` and `ai`
keys — the condition under which `renderTurn` does not raise. -/
def isTurnLike : Json → Bool
  | .obj fs => (fs.lookup "human").isSome && (fs.lookup "ai").isSome
  | _ => false

theorem renderTurn_ok_iff (c : Json) :
    (∃ s, renderTurn c = .ok s) ↔ isTurnLike c = true := by
  cases c with
  | obj fs =>
    cases h1 : fs.lookup "human" <;> cases h2 : fs.lookup "ai" <;>
      simp [renderTurn, isTurnLike, pyGetItem, h1, h2]
  | _ => simp [renderTurn, isTurnLike, pyGetItem]

theorem renderTurns_ok_iff (l : List Json) :
    (∃ r, renderTurns l = .ok r) ↔ ∀ c ∈ l, isTurnLike c = true := by
  induction l with
  | nil => simp [renderTurns]
  | cons c cs ih =>
    cases hc : renderTurn c with
    | error e =>
      have hnc : ¬ isTurnLike c = true := by
        rw [← renderTurn_ok_iff]
        rintro ⟨s, hs⟩
        rw [hc] at hs
        cases hs
      simp [renderTurns, hc, hnc]
    | ok s =>
      have hct : isTurnLike c = true := (renderTurn_ok_iff c).1 ⟨s, hc⟩
      cases hr : renderTurns cs with
      | error e =>
        have hnr : ¬ ∀ x ∈ cs, isTurnLike x = true := by
          rw [← ih]
          rintro ⟨r, hrr⟩
          rw [hr] at hrr
          cases hrr
        simp [renderTurns, hc, hr, hct, hnr]
      | ok rest =>
        have hok : ∀ x ∈ cs, isTurnLike x = true := ih.1 ⟨rest, hr⟩
        refine iff_of_true ⟨s :: rest, by simp [renderTurns, hc, hr]⟩ ?_
        intro x hx
        rcases List.mem_cons.1 hx with rfl | hx
        · exact hct
        · exact hok x hx

/-- A provider world whose calls all succeed. -/
def wDefault : World :=
  ⟨fun _ => .ok "transcript", fun _ => ⟨200, .null⟩,
   fun _ _ => .ok "reply", fun _ _ => ⟨200, [1, 2, 3]⟩⟩

/-- A provider world whose calls all fail. -/
def wFail : World :=
  ⟨fun _ => .error (.openAIAPIError "down"), fun _ => ⟨500, .null⟩,
   fun _ _ => .error (.openAIAPIError "chat down"), fun _ _ => ⟨503, []⟩⟩

/-- A world for the synthesis-failure scenario: transcription and
generation succeed, the ElevenLabs call returns 503. -/
def wSynthFail : World :=
  ⟨fun _ => .ok "hi", fun _ => ⟨200, .null⟩,
   fun _ _ => .ok "yo", fun _ _ => ⟨503, []⟩⟩

/-- The configuration with no credentials: mock mode. -/
def cfgMock : Config := ⟨"", "gpt-4o-mini", "", "", "21m00Tcm4TlvDq8ikWAM", true⟩

/-- Only the OpenAI credential is set. -/
def cfgOpenai : Config := ⟨"sk-test", "gpt-4o-mini", "", "", "v1", false⟩

/-- Both generation credentials are set. -/
def cfgBoth : Config := ⟨"sk-test", "gpt-4o-mini", "gm-test", "", "v1", false⟩

/-- Only the ElevenLabs credential is set: non-mock, no generation backend. -/
def cfgEleven : Config := ⟨"", "gpt-4o-mini", "", "el-test", "v1", false⟩

/-- OpenAI and ElevenLabs credentials set: every non-mock stage is live. -/
def cfgOpenaiEleven : Config := ⟨"sk-test", "gpt-4o-mini", "", "el-test", "v1", false⟩

/-- The prompt built from user text `hi` and an empty history. -/
def pEmptyHi : String :=
  "The following is a conversation between a human and an AI assistant.\nPrevious conversation:\n\n\nHuman: hi\nAI:"

/-! ## Claim theorems -/

/-- C1: in mock mode with an empty initial conversation store, for any input
path, `process_voice_message` returns the dict with the mock reply text and
the `ai_reply.mp3` path, the persisted store afterwards holds exactly one
Turn whose `human` field is the mock transcript and whose `ai` field is the
mock reply, the output audio file holds exactly the bytes `FAKEAUDIOBYTES`,
and no external call is made. -/
theorem C1_mock_end_to_end (cfg : Config) (w : World) (now path : String)
    (store0 : Option Json) (audio0 : Option (List Nat))
    (hm : cfg.mock = true) (h0 : store0 = none ∨ store0 = some (.arr [])) :
    process_voice_message cfg w now path store0 audio0 =
      ⟨.ok (.obj [("text", .str "I\x27m great! How can I assist you today?"),
                  ("audio_path", .str "ai_reply.mp3")]),
       some (.arr [.obj [("timestamp", .str now),
                         ("human", .str "Hello AI, how are you today?"),
                         ("ai", .str "I\x27m great! How can I assist you today?")]]),
       some (strBytes "FAKEAUDIOBYTES"),
       []⟩ := by
  rcases h0 with h0 | h0 <;> subst h0 <;>
    simp [process_voice_message, transcribe_audio, generate_response,
      synthesize_speech, append_to_context, load_context, save_context,
      mkTurn, hm]

theorem C1_witness_mock_end_to_end :
    cfgMock.mock = true ∧
    process_voice_message cfgMock wDefault "T0" "sample.wav" none none =
      ⟨.ok (.obj [("text", .str "I\x27m great! How can I assist you today?"),
                  ("audio_path", .str "ai_reply.mp3")]),
       some (.arr [.obj [("timestamp", .str "T0"),
                         ("human", .str "Hello AI, how are you today?"),
                         ("ai", .str "I\x27m great! How can I assist you today?")]]),
       some (strBytes "FAKEAUDIOBYTES"),
       []⟩ :=
  ⟨rfl, C1_mock_end_to_end cfgMock wDefault "T0" "sample.wav" none none rfl (Or.inl rfl)⟩

/-- C2 (counterexample): on a persisted store holding valid JSON that is not
a list — here the object `{"a": "b"}` — `load_context` does not fail with
`malformedStoreError`; it returns the object unchanged. -/
theorem C2_counterexample :
    load_context (some (Json.obj [("a", Json.str "b")])) =
      .ok (Json.obj [("a", Json.str "b")]) ∧
    load_context (some (Json.obj [("a", Json.str "b")])) ≠
      .error PyError.malformedStoreError := by
  refine ⟨rfl, ?_⟩
  intro h
  simp [load_context] at h

/-- C2 (amended): `load_context` returns valid non-list JSON content as-is
and never raises on it — the code performs no list validation (and defines
no `MalformedStoreError` at all) and does not substitute a default empty
history. -/
theorem C2_amended_load_returns_value (j : Json) :
    load_context (some j) = .ok j := rfl

/-- C3 (counterexample): with only the OpenAI credential configured and a
failing transcription call, `transcribe_audio` propagates the provider's
raw exception unchanged — it is not wrapped in a `transcriptionError`. -/
theorem C3_counterexample :
    (transcribe_audio cfgOpenai wFail "a.wav").1 =
      .error (.openAIAPIError "down") ∧
    (transcribe_audio cfgOpenai wFail "a.wav").1 ≠
      .error (.transcriptionError (.openAIAPIError "down")) := by
  constructor
  · rfl
  · rw [show (transcribe_audio cfgOpenai wFail "a.wav").1 =
        .error (.openAIAPIError "down") from rfl]
    simp

/-- C3 (amended): every remote-call failure in a non-mock stage propagates
the underlying transport/HTTP exception unchanged — no typed wrapper exists
— and exactly one call is made before the error propagates (no retry).
Stated for the Whisper call, the Gemini and OpenAI generation branches, and
the ElevenLabs call. -/
theorem C3_amended_raw_propagation (cfg : Config) (w : World) :
    (∀ path e, cfg.mock = false → pyTruthy cfg.OPENAI_API_KEY = true →
       w.whisper path = .error e →
       transcribe_audio cfg w path = (.error e, [.whisperCall path])) ∧
    (∀ text ctx prompt, cfg.mock = false →
       buildPrompt text ctx = .ok prompt →
       pyTruthy cfg.GEMINI_API_KEY = true →
       httpErrorStatus (w.gemini (geminiPayload prompt)).status = true →
       generate_response cfg w text ctx =
         (.error (.requestsHTTPError (w.gemini (geminiPayload prompt)).status),
          [.geminiPost (geminiPayload prompt)])) ∧
    (∀ text ctx prompt e, cfg.mock = false →
       buildPrompt text ctx = .ok prompt →
       pyTruthy cfg.GEMINI_API_KEY = false →
       pyTruthy cfg.OPENAI_API_KEY = true →
       w.openaiChat (pyOrStr cfg.OPENAI_MODEL "gpt-4o-mini") (openaiMessages prompt) =
         .error e →
       generate_response cfg w text ctx =
         (.error e, [.openaiPost (pyOrStr cfg.OPENAI_MODEL "gpt-4o-mini")
                       (openaiMessages prompt) 0.7])) ∧
    (∀ text, cfg.mock = false → pyTruthy cfg.ELEVEN_API_KEY = true →
       httpErrorStatus (w.eleven cfg.ELEVEN_VOICE_ID (synthesisPayload text)).status = true →
       synthesize_speech cfg w text =
         (.error (.requestsHTTPError (w.eleven cfg.ELEVEN_VOICE_ID (synthesisPayload text)).status),
          [.elevenPost cfg.ELEVEN_VOICE_ID (synthesisPayload text)])) := by
  refine ⟨?_, ?_, ?_, ?_⟩
  · intro path e hm hk hw
    simp [transcribe_audio, hm, hk, hw]
  · intro text ctx prompt hm hp hg hs
    simp [generate_response, hm, hp, hg, hs]
  · intro text ctx prompt e hm hp hg ho hw
    simp [generate_response, hm, hp, hg, ho, hw]
  · intro text hm hk hs
    simp [synthesize_speech, hm, hk, hs]

theorem C3_witness_raw_propagation :
    transcribe_audio cfgOpenai wFail "a.wav" =
      (.error (.openAIAPIError "down"), [.whisperCall "a.wav"]) ∧
    generate_response cfgBoth wFail "hi" (.arr []) =
      (.error (.requestsHTTPError 500), [.geminiPost (geminiPayload pEmptyHi)]) ∧
    generate_response cfgOpenai wFail "hi" (.arr []) =
      (.error (.openAIAPIError "chat down"),
       [.openaiPost "gpt-4o-mini" (openaiMessages pEmptyHi) 0.7]) ∧
    synthesize_speech cfgEleven wFail (.str "hi") =
      (.error (.requestsHTTPError 503),
       [.elevenPost "v1" (synthesisPayload (.str "hi"))]) :=
  ⟨(C3_amended_raw_propagation cfgOpenai wFail).1 "a.wav" _ rfl rfl rfl,
   (C3_amended_raw_propagation cfgBoth wFail).2.1 "hi" (.arr []) pEmptyHi rfl rfl rfl rfl,
   (C3_amended_raw_propagation cfgOpenai wFail).2.2.1 "hi" (.arr []) pEmptyHi _ rfl rfl rfl rfl rfl,
   (C3_amended_raw_propagation cfgEleven wFail).2.2.2 (.str "hi") rfl rfl rfl⟩

/-- C4: on a store whose persisted history is a valid list, appending a Turn
and reloading yields the old history plus the new Turn at the end: the last
element is the appended Turn, the length grows by exactly one, and the prior
elements are unchanged and in their original order. -/
theorem C4_append_then_load (store : Option Json) (xs : List Json)
    (now : String) (u a : Json)
    (h : load_context store = .ok (.arr xs)) :
    append_to_context store now u a =
      .ok (some (.arr (xs ++ [mkTurn now u a]))) ∧
    load_context (some (.arr (xs ++ [mkTurn now u a]))) =
      .ok (.arr (xs ++ [mkTurn now u a])) ∧
    (xs ++ [mkTurn now u a]).getLast? = some (mkTurn now u a) ∧
    (xs ++ [mkTurn now u a]).length = xs.length + 1 ∧
    (xs ++ [mkTurn now u a]).take xs.length = xs := by
  refine ⟨?_, rfl, by simp, by simp, by simp⟩
  simp [append_to_context, h, save_context]

theorem C4_witness_append_then_load :
    append_to_context (some (.arr [mkTurn "T0" (.str "a") (.str "b")])) "T1"
        (.str "c") (.str "d") =
      .ok (some (.arr [mkTurn "T0" (.str "a") (.str "b"),
                       mkTurn "T1" (.str "c") (.str "d")])) ∧
    load_context (some (.arr [mkTurn "T0" (.str "a") (.str "b"),
                              mkTurn "T1" (.str "c") (.str "d")])) =
      .ok (.arr [mkTurn "T0" (.str "a") (.str "b"),
                 mkTurn "T1" (.str "c") (.str "d")]) ∧
    [mkTurn "T0" (.str "a") (.str "b"),
     mkTurn "T1" (.str "c") (.str "d")].getLast? =
      some (mkTurn "T1" (.str "c") (.str "d")) ∧
    [mkTurn "T0" (.str "a") (.str "b"),
     mkTurn "T1" (.str "c") (.str "d")].length =
      [mkTurn "T0" (.str "a") (.str "b")].length + 1 ∧
    [mkTurn "T0" (.str "a") (.str "b"),
     mkTurn "T1" (.str "c") (.str "d")].take
        [mkTurn "T0" (.str "a") (.str "b")].length =
      [mkTurn "T0" (.str "a") (.str "b")] :=
  C4_append_then_load (some (.arr [mkTurn "T0" (.str "a") (.str "b")]))
    [mkTurn "T0" (.str "a") (.str "b")] "T1" (.str "c") (.str "d") rfl

/-- C5: the `mock` flag of the configuration returned by `load_from_env` is
true exactly when all three API-key fields of that configuration are empty,
and false whenever at least one of them is non-empty. -/
theorem C5_mock_iff_no_credentials (env : String → Option String) :
    (Config.load_from_env env).mock = true ↔
      ((Config.load_from_env env).OPENAI_API_KEY = "" ∧
       (Config.load_from_env env).GEMINI_API_KEY = "" ∧
       (Config.load_from_env env).ELEVEN_API_KEY = "") := by
  simp [Config.load_from_env, pyTruthy, String.isEmpty_iff, and_assoc]

/-- Whether an `Except` value is a normal return rather than a raised
exception. -/
def exceptIsOk {ε α : Type} : Except ε α → Bool
  | .ok _ => true
  | .error _ => false

/-- C6: in a non-mock call on a history longer than 5 turns, the prompt —
and with it the whole of `generate_response`, including every outbound
request payload — is built from exactly the 5 most recent entries (in their
original, oldest-first order): replacing the history by its last 5 entries
changes nothing. -/
theorem C6_history_window (cfg : Config) (w : World) (text : String)
    (xs : List Json) (hm : cfg.mock = false) (hl : 5 < xs.length) :
    (xs.drop (xs.length - 5)).length = 5 ∧
    buildPrompt text (.arr xs) = buildPrompt text (.arr (xs.drop (xs.length - 5))) ∧
    generate_response cfg w text (.arr xs) =
      generate_response cfg w text (.arr (xs.drop (xs.length - 5))) := by
  have hlen : (xs.drop (xs.length - 5)).length = 5 := by
    simp only [List.length_drop]
    omega
  have hslice : pySliceLast5 (.arr (xs.drop (xs.length - 5))) =
      .ok (xs.drop (xs.length - 5)) := by
    simp [pySliceLast5, hlen]
  have hbp : buildPrompt text (.arr xs) =
      buildPrompt text (.arr (xs.drop (xs.length - 5))) := by
    unfold buildPrompt
    rw [show pySliceLast5 (.arr xs) = .ok (xs.drop (xs.length - 5)) from rfl, hslice]
  exact ⟨hlen, hbp, by simp [generate_response, hm, hbp]⟩

/-- A six-turn history, for instantiating the window claims. -/
def xs6 : List Json :=
  [mkTurn "T1" (.str "h1") (.str "a1"), mkTurn "T2" (.str "h2") (.str "a2"),
   mkTurn "T3" (.str "h3") (.str "a3"), mkTurn "T4" (.str "h4") (.str "a4"),
   mkTurn "T5" (.str "h5") (.str "a5"), mkTurn "T6" (.str "h6") (.str "a6")]

theorem C6_witness_history_window :
    (xs6.drop (xs6.length - 5)).length = 5 ∧
    buildPrompt "hi" (.arr xs6) = buildPrompt "hi" (.arr (xs6.drop (xs6.length - 5))) ∧
    generate_response cfgBoth wDefault "hi" (.arr xs6) =
      generate_response cfgBoth wDefault "hi" (.arr (xs6.drop (xs6.length - 5))) :=
  C6_history_window cfgBoth wDefault "hi" xs6 rfl (by decide)

/-- C7: in a non-mock call whose prompt builds successfully, the backend
selection is: Gemini key truthy ⇒ exactly one Gemini call and no OpenAI
call; Gemini key empty and OpenAI key truthy ⇒ exactly one OpenAI call;
neither set ⇒ the literal configuration-error string is returned (not
raised) with no call at all; and in every case at most one provider call is
performed — no fallback between providers. -/
theorem C7_backend_selection (cfg : Config) (w : World) (text : String)
    (ctx : Json) (prompt : String) (hm : cfg.mock = false)
    (hp : buildPrompt text ctx = .ok prompt) :
    (pyTruthy cfg.GEMINI_API_KEY = true →
       (generate_response cfg w text ctx).2 = [.geminiPost (geminiPayload prompt)]) ∧
    (pyTruthy cfg.GEMINI_API_KEY = false → pyTruthy cfg.OPENAI_API_KEY = true →
       (generate_response cfg w text ctx).2 =
         [.openaiPost (pyOrStr cfg.OPENAI_MODEL "gpt-4o-mini") (openaiMessages prompt) 0.7]) ∧
    (pyTruthy cfg.GEMINI_API_KEY = false → pyTruthy cfg.OPENAI_API_KEY = false →
       generate_response cfg w text ctx =
         (.ok (.str "[Error] No language model API configured."), [])) ∧
    (generate_response cfg w text ctx).2.length ≤ 1 := by
  refine ⟨?_, ?_, ?_, ?_⟩
  · intro hg
    by_cases hs : httpErrorStatus (w.gemini (geminiPayload prompt)).status = true
    · simp [generate_response, hm, hp, hg, hs]
    · simp [generate_response, hm, hp, hg, hs]
  · intro hg ho
    cases hw : w.openaiChat (pyOrStr cfg.OPENAI_MODEL "gpt-4o-mini") (openaiMessages prompt) with
    | ok c => simp [generate_response, hm, hp, hg, ho, hw]
    | error e => simp [generate_response, hm, hp, hg, ho, hw]
  · intro hg ho
    simp [generate_response, hm, hp, hg, ho]
  · by_cases hg : pyTruthy cfg.GEMINI_API_KEY = true
    · by_cases hs : httpErrorStatus (w.gemini (geminiPayload prompt)).status = true <;>
        simp [generate_response, hm, hp, hg, hs]
    · by_cases ho : pyTruthy cfg.OPENAI_API_KEY = true
      · cases hw : w.openaiChat (pyOrStr cfg.OPENAI_MODEL "gpt-4o-mini") (openaiMessages prompt) <;>
          simp [generate_response, hm, hp, hg, ho, hw]
      · simp [generate_response, hm, hp, hg, ho]

theorem C7_witness_backend_selection :
    (generate_response cfgBoth wDefault "hi" (.arr [])).2 =
      [.geminiPost (geminiPayload pEmptyHi)] ∧
    (generate_response cfgOpenai wDefault "hi" (.arr [])).2 =
      [.openaiPost "gpt-4o-mini" (openaiMessages pEmptyHi) 0.7] ∧
    generate_response cfgEleven wDefault "hi" (.arr []) =
      (.ok (.str "[Error] No language model API configured."), []) :=
  ⟨(C7_backend_selection cfgBoth wDefault "hi" (.arr []) pEmptyHi rfl rfl).1 (by decide),
   (C7_backend_selection cfgOpenai wDefault "hi" (.arr []) pEmptyHi rfl rfl).2.1
     (by decide) (by decide),
   (C7_backend_selection cfgEleven wDefault "hi" (.arr []) pEmptyHi rfl rfl).2.2.1
     (by decide) (by decide)⟩

/-- C8: in mock mode, `transcribe_audio` returns the literal string
`Hello AI, how are you today?` for every input path and every provider
world, with an empty call list — no network request and no read of the
given file. -/
theorem C8_mock_transcribe (cfg : Config) (w : World) (path : String)
    (hm : cfg.mock = true) :
    transcribe_audio cfg w path = (.ok "Hello AI, how are you today?", []) := by
  simp [transcribe_audio, hm]

theorem C8_witness_mock_transcribe :
    transcribe_audio cfgMock wFail "missing.wav" =
      (.ok "Hello AI, how are you today?", []) :=
  C8_mock_transcribe cfgMock wFail "missing.wav" rfl

/-- C9: when synthesis fails after the history append has already succeeded
inside `process_voice_message`, the raised error propagates to the caller,
the audio-file write and result construction are not executed (the audio
file keeps its prior content), and the appended Turn remains in the
persisted store — the append is not rolled back. -/
theorem C9_synthesis_failure_keeps_append (cfg : Config) (w : World)
    (now path : String) (store0 : Option Json) (audio0 : Option (List Nat))
    (t : String) (xs : List Json) (r : Json) (e : PyError)
    (cs1 cs2 cs3 : List Call)
    (h1 : transcribe_audio cfg w path = (.ok t, cs1))
    (h2 : load_context store0 = .ok (.arr xs))
    (h3 : generate_response cfg w t (.arr xs) = (.ok r, cs2))
    (h5 : synthesize_speech cfg w r = (.error e, cs3)) :
    process_voice_message cfg w now path store0 audio0 =
      ⟨.error e, some (.arr (xs ++ [mkTurn now (.str t) r])), audio0,
       cs1 ++ cs2 ++ cs3⟩ := by
  simp [process_voice_message, h1, h2, h3, h5, append_to_context, save_context]

theorem C9_witness_synthesis_failure :
    process_voice_message cfgOpenaiEleven wSynthFail "T0" "a.wav" none none =
      ⟨.error (.requestsHTTPError 503),
       some (.arr [mkTurn "T0" (.str "hi") (.str "yo")]), none,
       [.whisperCall "a.wav"]
         ++ [.openaiPost "gpt-4o-mini" (openaiMessages pEmptyHi) 0.7]
         ++ [.elevenPost "v1" (synthesisPayload (.str "yo"))]⟩ :=
  C9_synthesis_failure_keeps_append cfgOpenaiEleven wSynthFail "T0" "a.wav"
    none none "hi" [] (.str "yo") (.requestsHTTPError 503)
    [.whisperCall "a.wav"] [.openaiPost "gpt-4o-mini" (openaiMessages pEmptyHi) 0.7]
    [.elevenPost "v1" (synthesisPayload (.str "yo"))] rfl rfl rfl rfl

/-- C10: in a non-mock call with a generation credential set, the prompt
construction reads the `human` and `ai` fields of each of the last 5 history
entries with no guard: it succeeds exactly when every one of those entries
is a dict containing both keys, and on any history where one of them is
not, `generate_response` raises before any provider is invoked (the call
list is empty). -/
theorem C10_prompt_guard (cfg : Config) (w : World) (text : String)
    (xs : List Json) (hm : cfg.mock = false)
    (_hk : pyTruthy cfg.GEMINI_API_KEY = true ∨ pyTruthy cfg.OPENAI_API_KEY = true) :
    ((∃ p, buildPrompt text (.arr xs) = .ok p) ↔
       ∀ c ∈ xs.drop (xs.length - 5), isTurnLike c = true) ∧
    ((∃ c ∈ xs.drop (xs.length - 5), isTurnLike c = false) →
       exceptIsOk (generate_response cfg w text (.arr xs)).1 = false ∧
       (generate_response cfg w text (.arr xs)).2 = []) := by
  have h1 : (∃ p, buildPrompt text (.arr xs) = .ok p) ↔
      ∃ r, renderTurns (xs.drop (xs.length - 5)) = .ok r := by
    unfold buildPrompt
    rw [show pySliceLast5 (.arr xs) = .ok (xs.drop (xs.length - 5)) from rfl]
    cases h : renderTurns (xs.drop (xs.length - 5)) with
    | ok r => simp [h]
    | error e => simp [h]
  constructor
  · rw [h1, renderTurns_ok_iff]
  · rintro ⟨c, hc, hbad⟩
    have hnall : ¬ ∀ x ∈ xs.drop (xs.length - 5), isTurnLike x = true := by
      intro hall
      rw [hall c hc] at hbad
      cases hbad
    have hno : ¬ ∃ p, buildPrompt text (.arr xs) = .ok p := by
      rw [h1, renderTurns_ok_iff]
      exact hnall
    cases hb : buildPrompt text (.arr xs) with
    | ok p => exact absurd ⟨p, hb⟩ hno
    | error e => simp [generate_response, hm, hb, exceptIsOk]

/-- A one-entry history whose entry lacks both the `human` and `ai` keys. -/
def xsBad : List Json := [Json.obj [("timestamp", .str "T0")]]

theorem C10_witness_prompt_guard :
    ((∃ p, buildPrompt "hi" (.arr xsBad) = .ok p) ↔
       ∀ c ∈ xsBad.drop (xsBad.length - 5), isTurnLike c = true) ∧
    (exceptIsOk (generate_response cfgBoth wDefault "hi" (.arr xsBad)).1 = false ∧
     (generate_response cfgBoth wDefault "hi" (.arr xsBad)).2 = []) :=
  ⟨(C10_prompt_guard cfgBoth wDefault "hi" xsBad rfl (Or.inl (by decide))).1,
   (C10_prompt_guard cfgBoth wDefault "hi" xsBad rfl (Or.inl (by decide))).2
     ⟨Json.obj [("timestamp", .str "T0")], by simp [xsBad], by decide⟩⟩

end VoiceMesh
